import Mathlib

/-!
Shallow embedding of the RAG chatbot in `chatbot.py`.

The embedded parts are: the token estimator `estimate_tokens`, the prompt
and budget arithmetic of the `respond` function, the greedy knowledge
packing loop, the request body construction, and the classification of the
parsed JSON response (error payload / success / malformed), together with
the surrounding try/except that converts any raised exception into an
`"Error: ..."` string.  Python exceptions are modelled with an explicit
`Except` monad; external effects (the retriever call and the HTTP POST)
enter as oracle parameters.
-/

/-- Python exceptions that the embedded code can raise. -/
inductive PyExc where
  | keyErrorStr (key : String)
  | keyErrorInt (key : Int)
  | typeError (msg : String)
  | indexError (msg : String)
  | connectionError (msg : String)
deriving DecidableEq

/-- Python `str(e)` for the exceptions above; note that
`str(KeyError("k"))` renders as the key wrapped in single quotes. -/
def excMessage : PyExc → String
  | .keyErrorStr k => "\x27" ++ k ++ "\x27"
  | .keyErrorInt k => toString k
  | .typeError m => m
  | .indexError m => m
  | .connectionError m => m

/-- JSON values as returned by `response.json()` (numbers restricted to
integers; no claim involves a fractional number). -/
inductive Json where
  | null
  | bool (b : Bool)
  | num (n : Int)
  | str (s : String)
  | arr (elems : List Json)
  | obj (fields : List (String × Json))

mutual

/-- Python `repr` of a JSON value (escaping inside string literals is
elided; no claim depends on it). -/
def pyRepr : Json → String
  | .null => "None"
  | .bool b => if b then "True" else "False"
  | .num n => toString n
  | .str s => "\x27" ++ s ++ "\x27"
  | .arr xs => "[" ++ pyReprElems xs ++ "]"
  | .obj fs => "\x7b" ++ pyReprFields fs ++ "\x7d"

/-- Comma-separated `repr` of list elements. -/
def pyReprElems : List Json → String
  | [] => ""
  | [x] => pyRepr x
  | x :: xs => pyRepr x ++ ", " ++ pyReprElems xs

/-- Comma-separated `repr` of dict entries. -/
def pyReprFields : List (String × Json) → String
  | [] => ""
  | [(k, v)] => "\x27" ++ k ++ "\x27: " ++ pyRepr v
  | (k, v) :: fs => "\x27" ++ k ++ "\x27: " ++ pyRepr v ++ ", " ++ pyReprFields fs

end

/-- Python `str` of a JSON value: strings verbatim, scalars and containers
as `repr` renders them. -/
def pyStr : Json → String
  | .str s => s
  | j => pyRepr j

/-- Substring test, modelling the Python expression `needle in haystack`
for strings. -/
def strContains (haystack needle : String) : Bool :=
  needle == "" || (haystack.splitOn needle).length != 1

/-- Python `key in j` for a string `key`: key test on dicts, membership on
lists, substring test on strings, `TypeError` otherwise. -/
def Json.hasMember (j : Json) (key : String) : Except PyExc Bool :=
  match j with
  | .obj fs => .ok (fs.any (fun f => f.1 == key))
  | .arr xs => .ok (xs.any (fun x => match x with | .str s => s == key | _ => false))
  | .str s => .ok (strContains s key)
  | .null => .error (.typeError "argument of type \x27NoneType\x27 is not iterable")
  | .bool _ => .error (.typeError "argument of type \x27bool\x27 is not iterable")
  | .num _ => .error (.typeError "argument of type \x27int\x27 is not iterable")

/-- First-match association lookup among the fields of a JSON object. -/
def lookupField : List (String × Json) → String → Option Json
  | [], _ => none
  | (k, v) :: fs, key => if k == key then some v else lookupField fs key

/-- Python `j[key]` for a string `key`. -/
def Json.getKey (j : Json) (key : String) : Except PyExc Json :=
  match j with
  | .obj fs =>
    match lookupField fs key with
    | some v => .ok v
    | none => .error (.keyErrorStr key)
  | .arr _ => .error (.typeError "list indices must be integers or slices, not str")
  | .str _ => .error (.typeError "string indices must be integers")
  | .null => .error (.typeError "\x27NoneType\x27 object is not subscriptable")
  | .bool _ => .error (.typeError "\x27bool\x27 object is not subscriptable")
  | .num _ => .error (.typeError "\x27int\x27 object is not subscriptable")

/-- Python `j[0]`. -/
def Json.getFirst (j : Json) : Except PyExc Json :=
  match j with
  | .arr [] => .error (.indexError "list index out of range")
  | .arr (x :: _) => .ok x
  | .str s =>
    match s.data with
    | [] => .error (.indexError "string index out of range")
    | c :: _ => .ok (.str (String.mk [c]))
  | .obj _ => .error (.keyErrorInt 0)
  | .null => .error (.typeError "\x27NoneType\x27 object is not subscriptable")
  | .bool _ => .error (.typeError "\x27bool\x27 object is not subscriptable")
  | .num _ => .error (.typeError "\x27int\x27 object is not subscriptable")

/-- Python `len(j)`. -/
def Json.pyLen (j : Json) : Except PyExc Int :=
  match j with
  | .obj fs => .ok fs.length
  | .arr xs => .ok xs.length
  | .str s => .ok s.length
  | .null => .error (.typeError "object of type \x27NoneType\x27 has no len()")
  | .bool _ => .error (.typeError "object of type \x27bool\x27 has no len()")
  | .num _ => .error (.typeError "object of type \x27int\x27 has no len()")

/-- The token estimator of chatbot.py line 31: `len(text) // 4`. -/
def estimate_tokens (text : String) : Nat :=
  text.length / 4

/-- The configured context ceiling `MAX_TOKENS = 14000` (line 17). -/
def MAX_TOKENS : Int := 14000

/-- The fixed system prompt (line 43). -/
def systemPrompt : String :=
  "You answer questions based only on the provided knowledge."

/-- The f-string `user_prompt_template` (line 44); it embeds the question. -/
def userPromptTemplate (message : String) : String :=
  "Question: " ++ message ++ "\n\nKnowledge: "

/-- The `base_tokens` computation (line 47). -/
def baseTokens (message : String) : Nat :=
  estimate_tokens systemPrompt + estimate_tokens (userPromptTemplate message)

/-- The `max_knowledge_tokens` budget (line 48):
`MAX_TOKENS - base_tokens - 1000`. -/
def maxKnowledgeTokens (message : String) : Int :=
  MAX_TOKENS - (baseTokens message : Int) - 1000

/-- The packing loop of lines 50 to 59, as a fold over the retrieved
passage texts carrying the `knowledge` string and the running
`total_tokens`; a passage is appended (followed by a blank line) exactly
when its estimated cost still fits the budget, and otherwise skipped
while the loop continues. -/
def packAux (budget : Int) : List String → Int → String → String × Int
  | [], total, knowledge => (knowledge, total)
  | d :: ds, total, knowledge =>
    let cost : Int := (estimate_tokens d : Int)
    if total + cost ≤ budget then
      packAux budget ds (total + cost) (knowledge ++ d ++ "\n\n")
    else
      packAux budget ds total knowledge

/-- The knowledge block built by the loop, from `knowledge = ""` and
`total_tokens = 0`. -/
def pack (docs : List String) (budget : Int) : String :=
  (packAux budget docs 0 "").1

/-- The final value of the running total `total_tokens` after the loop. -/
def totalTokens (docs : List String) (budget : Int) : Int :=
  (packAux budget docs 0 "").2

/-- The sublist of passages the loop includes (same branch condition as
`packAux`). -/
def selectAux (budget : Int) : List String → Int → List String
  | [], _ => []
  | d :: ds, total =>
    let cost : Int := (estimate_tokens d : Int)
    if total + cost ≤ budget then d :: selectAux budget ds (total + cost)
    else selectAux budget ds total

/-- The included passages of `pack docs budget`, in order. -/
def select (docs : List String) (budget : Int) : List String :=
  selectAux budget docs 0

/-- Concatenation with the `"\n\n"` separator appended after every
passage. -/
def concatSep : List String → String
  | [] => ""
  | d :: ds => d ++ "\n\n" ++ concatSep ds

/-- One entry of the `messages` list of the request body. -/
structure ChatMessage where
  role : String
  content : String
deriving DecidableEq

/-- The request body of lines 67 to 74. -/
structure ChatRequest where
  model : String
  messages : List ChatMessage
  max_tokens : Int
deriving DecidableEq

/-- Construction of the request body: fixed system message, user message
embedding the question and the knowledge block, response cap 1000. -/
def buildRequest (modelName message knowledge : String) : ChatRequest :=
  { model := modelName
    messages :=
      [ { role := "system", content := systemPrompt }
      , { role := "user"
          content := "Question: " ++ message ++ "\n\nKnowledge: " ++ knowledge } ]
    max_tokens := 1000 }

/-- Lines 86 to 99: classify the parsed JSON body.  The error branch is
checked first; then a non-empty `choices` list whose first element has a
`message` key yields the `content` field; every other parsed shape falls
through to the fixed could-not-parse string.  Any lookup that Python
would raise on is an `.error`. -/
def classifyBody (j : Json) : Except PyExc String := do
  let hasErr ← j.hasMember "error"
  if hasErr then
    let errVal ← j.getKey "error"
    let msgVal ← errVal.getKey "message"
    return "API Error: " ++ pyStr msgVal
  else
    let hasCh ← j.hasMember "choices"
    if hasCh then
      let choices ← j.getKey "choices"
      let n ← choices.pyLen
      if 0 < n then
        let first ← choices.getFirst
        let hasMsg ← first.hasMember "message"
        if hasMsg then
          let msgObj ← first.getKey "message"
          let content ← msgObj.getKey "content"
          return pyStr content
        else
          return "Could not parse API response properly."
      else
        return "Could not parse API response properly."
    else
      return "Could not parse API response properly."

/-- The body of the try-block of `respond` (lines 36 to 99).  The
retriever call and the HTTP POST are oracles: `retrieval` is the outcome
of `retriever.invoke(message)` (a list of page contents, or a raised
exception) and `http` maps the constructed request body to the parsed
JSON response or a raised transport/parse exception. -/
def respondTry (retrieval : Except PyExc (List String)) (modelName message : String)
    (http : ChatRequest → Except PyExc Json) : Except PyExc String := do
  let docs ← retrieval
  let knowledge := pack docs (maxKnowledgeTokens message)
  let body ← http (buildRequest modelName message knowledge)
  classifyBody body

/-- The `respond` function (lines 35 to 104): the try/except wrapper that
converts any raised exception into the string `"Error: " ++ str(e)`. -/
def respond (retrieval : Except PyExc (List String)) (modelName message : String)
    (http : ChatRequest → Except PyExc Json) : String :=
  match respondTry retrieval modelName message http with
  | .ok s => s
  | .error e => "Error: " ++ excMessage e

/-! ### Helper lemmas about the packing loop -/

/-- The knowledge string built by the loop is the starting string followed
by the selected passages, each with the separator appended. -/
theorem packAux_fst_eq (budget : Int) :
    ∀ (ds : List String) (t : Int) (k : String),
      (packAux budget ds t k).1 = k ++ concatSep (selectAux budget ds t) := by
  intro ds
  induction ds with
  | nil => intro t k; simp [packAux, selectAux, concatSep]
  | cons d ds ih =>
    intro t k
    by_cases h : t + (estimate_tokens d : Int) ≤ budget
    · simp only [packAux, selectAux, h, if_pos, concatSep, ih, String.append_assoc]
    · simp only [packAux, selectAux, h, if_neg, not_false_iff, concatSep, ih]

/-- The selected passages form a sublist of the input list. -/
theorem selectAux_sublist (budget : Int) :
    ∀ (ds : List String) (t : Int), List.Sublist (selectAux budget ds t) ds := by
  intro ds
  induction ds with
  | nil => intro t; simp [selectAux]
  | cons d ds ih =>
    intro t
    by_cases h : t + (estimate_tokens d : Int) ≤ budget
    · simpa [selectAux, h] using List.Sublist.cons₂ d (ih _)
    · simpa [selectAux, h] using List.Sublist.cons d (ih _)

/-- The running total never exceeds the budget once it is below it. -/
theorem packAux_snd_le (budget : Int) :
    ∀ (ds : List String) (t : Int) (k : String),
      t ≤ budget → (packAux budget ds t k).2 ≤ budget := by
  intro ds
  induction ds with
  | nil => intro t k ht; simpa [packAux] using ht
  | cons d ds ih =>
    intro t k ht
    by_cases h : t + (estimate_tokens d : Int) ≤ budget
    · simpa [packAux, h] using ih _ _ h
    · simpa [packAux, h] using ih _ _ ht

/-- With a negative budget and a non-negative running total, the loop
includes nothing. -/
theorem packAux_of_neg (budget : Int) (hb : budget < 0) :
    ∀ (ds : List String) (t : Int) (k : String),
      0 ≤ t → packAux budget ds t k = (k, t) := by
  intro ds
  induction ds with
  | nil => intro t k _; rfl
  | cons d ds ih =>
    intro t k ht
    have hc : ¬ t + (estimate_tokens d : Int) ≤ budget := by
      have : (0 : Int) ≤ (estimate_tokens d : Int) := Int.natCast_nonneg _
      omega
    simpa [packAux, hc] using ih _ _ ht

/-- Length of a string made of `n` copies of one character. -/
theorem length_mk_replicate (n : Nat) (c : Char) :
    (String.mk (List.replicate n c)).length = n := by
  show (List.replicate n c).length = n
  simp

/-- A separated concatenation is empty or ends with the separator. -/
theorem concatSep_empty_or_sep :
    ∀ l : List String, concatSep l = "" ∨ ∃ r, concatSep l = r ++ "\n\n" := by
  intro l
  induction l with
  | nil => exact .inl rfl
  | cons d ds ih =>
    refine .inr ?_
    rcases ih with h | ⟨r, h⟩
    · exact ⟨d, by simp [concatSep, h]⟩
    · exact ⟨d ++ "\n\n" ++ r, by simp [concatSep, h, String.append_assoc]⟩

/-! ### Claims about the token estimator and the packing loop -/

/-- C9: `estimate_tokens` equals the reference definition — length divided
by 4, rounded down — hence is a non-negative integer; it maps the empty
string to 0 and is monotone non-decreasing in string length. -/
theorem estimate_tokens_spec :
    (∀ s : String, estimate_tokens s = s.length / 4 ∧ 0 ≤ (estimate_tokens s : Int)) ∧
    estimate_tokens "" = 0 ∧
    (∀ s t : String, s.length ≤ t.length → estimate_tokens s ≤ estimate_tokens t) :=
  ⟨fun _ => ⟨rfl, Int.natCast_nonneg _⟩, rfl,
   fun _ _ h => Nat.div_le_div_right h⟩

/-- Witness for C9 at concrete strings. -/
theorem estimate_tokens_spec_witness :
    ("ab" : String).length ≤ ("abcdef" : String).length ∧
    estimate_tokens "ab" ≤ estimate_tokens "abcdef" :=
  ⟨by decide, estimate_tokens_spec.2.2 "ab" "abcdef" (by decide)⟩

/-- C1 counterexample: with budget 0 (which is ≥ 0) and the single passage
"abc" (estimated cost 0), the loop includes the passage, and the estimate
of the whole concatenated block — separators included — is 1, exceeding
the budget.  The claim as stated, applying the estimate to the block with
its separators, is therefore false. -/
theorem pack_block_estimate_exceeds_budget :
    (0 : Int) ≤ 0 ∧ ¬ ((estimate_tokens (pack ["abc"] 0) : Int) ≤ 0) := by
  decide

/-- C1 amended: the invariant the loop actually maintains is on its
running total — the sum of the estimated costs of the included passages:
for every passage list and every budget ≥ 0, the final running total
never exceeds the budget. -/
theorem totalTokens_le_budget (docs : List String) (budget : Int)
    (hb : 0 ≤ budget) : totalTokens docs budget ≤ budget :=
  packAux_snd_le budget docs 0 "" hb

/-- Witness for the amended C1 at a concrete list and budget. -/
theorem totalTokens_le_budget_witness :
    (0 : Int) ≤ 2 ∧ totalTokens ["hello world"] 2 ≤ 2 :=
  ⟨by decide, totalTokens_le_budget ["hello world"] 2 (by decide)⟩

/-- C2: on three passages of estimated sizes 500, 4000, 300 (lengths 2000,
16000, 1200) and budget 600, the block contains exactly the first passage
followed by the separator — the 4000 passage fails the fit test and the
300 passage is also rejected since 500 + 300 > 600 while the loop keeps
scanning; and in general the block is the separator-concatenation of a
sublist of the input, so included passages keep their relative order. -/
theorem pack_scenario_and_order :
    (∀ a b c : String, a.length = 2000 → b.length = 16000 → c.length = 1200 →
      pack [a, b, c] 600 = a ++ "\n\n") ∧
    (∀ (docs : List String) (budget : Int),
      pack docs budget = concatSep (select docs budget) ∧
      List.Sublist (select docs budget) docs) := by
  constructor
  · intro a b c ha hb hc
    simp [pack, packAux, estimate_tokens, ha, hb, hc]
  · intro docs budget
    refine ⟨?_, selectAux_sublist budget docs 0⟩
    show (packAux budget docs 0 "").1 = concatSep (selectAux budget docs 0)
    rw [packAux_fst_eq, String.empty_append]

/-- Witness for C2 at concrete passages of lengths 2000, 16000, 1200. -/
theorem pack_scenario_and_order_witness :
    pack [String.mk (List.replicate 2000 'a'), String.mk (List.replicate 16000 'b'),
          String.mk (List.replicate 1200 'c')] 600
      = String.mk (List.replicate 2000 'a') ++ "\n\n" :=
  pack_scenario_and_order.1 _ _ _ (length_mk_replicate 2000 'a')
    (length_mk_replicate 16000 'b') (length_mk_replicate 1200 'c')

/-- C3 counterexample: at budget 0 the passage "abc" has estimated cost
0 ≤ 0, so the loop includes it and the block is not empty — packing a
non-empty list with budget 0 does not always yield the empty block. -/
theorem pack_budget_zero_not_empty :
    pack ["abc"] 0 = "abc\n\n" ∧ pack ["abc"] 0 ≠ "" := by
  constructor
  · rfl
  · decide

/-- C3 amended: with a strictly negative budget the block is always empty
(a non-negative cost can never fit); at budget 0 a passage of estimated
cost 0 — fewer than 4 characters — is still included. -/
theorem pack_neg_budget_empty (docs : List String) (budget : Int)
    (hb : budget < 0) : pack docs budget = "" := by
  simp [pack, packAux_of_neg budget hb docs 0 "" le_rfl]

/-- Witness for the amended C3 at a concrete list and budget. -/
theorem pack_neg_budget_empty_witness : pack ["abc"] (-1) = "" :=
  pack_neg_budget_empty ["abc"] (-1) (by decide)

/-- C7 counterexample: passages of estimated sizes 3 and 5 with budget 5.
In the given order the loop includes only the first (total 3); on the
reversed list it includes the 5-token passage (total 5), so reversing
increased the total included text, refuting the claim. -/
theorem reverse_pack_increases_total :
    (0 : Int) ≤ 5 ∧
    ¬ (totalTokens ([String.mk (List.replicate 12 'a'),
                     String.mk (List.replicate 20 'b')].reverse) 5
        ≤ totalTokens [String.mk (List.replicate 12 'a'),
                       String.mk (List.replicate 20 'b')] 5) := by
  decide

/-- C7 amended: reversing the candidate list can change which passages are
included and can even increase the total included text; what holds is
that the packing of the reversed list (like that of the original) keeps
its running total within any non-negative budget. -/
theorem reverse_pack_respects_budget (docs : List String) (budget : Int)
    (hb : 0 ≤ budget) :
    totalTokens docs.reverse budget ≤ budget ∧ totalTokens docs budget ≤ budget :=
  ⟨packAux_snd_le budget docs.reverse 0 "" hb, packAux_snd_le budget docs 0 "" hb⟩

/-- Witness for the amended C7 at a concrete list and budget. -/
theorem reverse_pack_respects_budget_witness :
    (0 : Int) ≤ 5 ∧
    (totalTokens (["abcdefgh"].reverse) 5 ≤ 5 ∧ totalTokens ["abcdefgh"] 5 ≤ 5) :=
  ⟨by decide, reverse_pack_respects_budget ["abcdefgh"] 5 (by decide)⟩

/-- C10: the knowledge block is exactly the concatenation of the included
passages each followed by the two-character blank-line separator, so
every non-empty block carries a trailing separator. -/
theorem pack_block_ends_with_separator (docs : List String) (budget : Int) :
    pack docs budget = concatSep (select docs budget) ∧
    (pack docs budget ≠ "" → ∃ r, pack docs budget = r ++ "\n\n") := by
  have h1 : pack docs budget = concatSep (select docs budget) := by
    show (packAux budget docs 0 "").1 = concatSep (selectAux budget docs 0)
    rw [packAux_fst_eq, String.empty_append]
  refine ⟨h1, fun hne => ?_⟩
  rcases concatSep_empty_or_sep (select docs budget) with h | ⟨r, h⟩
  · exact absurd (h1.trans h) hne
  · exact ⟨r, h1.trans h⟩

/-- Witness for C10 at a concrete list and budget. -/
theorem pack_block_ends_with_separator_witness :
    ∃ r, pack ["hi"] 100 = r ++ "\n\n" :=
  (pack_block_ends_with_separator ["hi"] 100).2 (by decide)

/-! ### Helper lemmas about JSON field access -/

/-- A successful field lookup means the key test succeeds. -/
theorem lookupField_any (fs : List (String × Json)) (key : String) (v : Json)
    (h : lookupField fs key = some v) : fs.any (fun f => f.1 == key) = true := by
  induction fs with
  | nil => simp [lookupField] at h
  | cons f fs ih =>
    obtain ⟨a, b⟩ := f
    simp only [lookupField] at h
    by_cases hk : a == key
    · simp [List.any_cons, hk]
    · rw [if_neg hk] at h
      simp [List.any_cons, hk, ih h]

/-- A successful string-key access implies the Python `in` test returns
`True` on the same value. -/
theorem hasMember_of_getKey {j : Json} {key : String} {v : Json}
    (h : j.getKey key = .ok v) : j.hasMember key = .ok true := by
  cases j with
  | obj fs =>
    cases hl : lookupField fs key with
    | none => simp [Json.getKey, hl] at h
    | some w => simp [Json.hasMember, lookupField_any fs key w hl]
  | null => simp [Json.getKey] at h
  | bool b => simp [Json.getKey] at h
  | num n => simp [Json.getKey] at h
  | str s => simp [Json.getKey] at h
  | arr xs => simp [Json.getKey] at h

/-- Reduction of a `do` bind on a successful step. -/
@[simp] theorem ok_bind {α β : Type} (a : α) (f : α → Except PyExc β) :
    (do let x ← Except.ok a; f x : Except PyExc β) = f a := rfl

/-- Reduction of a `do` bind on a raised exception. -/
@[simp] theorem error_bind {α β : Type} (e : PyExc) (f : α → Except PyExc β) :
    (do let x ← Except.error e; f x : Except PyExc β) = Except.error e := rfl

/-- Reduction of `Functor.map` on a successful step. -/
@[simp] theorem map_ok {α β : Type} (a : α) (f : α → β) :
    (f <$> (Except.ok a : Except PyExc α)) = Except.ok (f a) := rfl

/-- Reduction of `Functor.map` on a raised exception. -/
@[simp] theorem map_error {α β : Type} (e : PyExc) (f : α → β) :
    (f <$> (Except.error e : Except PyExc α)) = Except.error e := rfl

/-- `pure` in the `Except` monad is `Except.ok`. -/
@[simp] theorem pure_eq_ok {α : Type} (a : α) :
    (pure a : Except PyExc α) = Except.ok a := rfl

/-! ### Claims about response classification and the respond wrapper -/

/-- C4: a parsed body whose `error` field carries a `message` string is
classified as the API-error string containing that message, and this
branch wins regardless of whatever else — in particular a `choices`
list — the body contains. -/
theorem classify_api_error_priority (j errVal : Json) (msg : String)
    (docs : List String) (modelName q : String)
    (h1 : j.getKey "error" = .ok errVal)
    (h2 : errVal.getKey "message" = .ok (.str msg)) :
    classifyBody j = .ok ("API Error: " ++ msg) ∧
    respond (.ok docs) modelName q (fun _ => .ok j) = "API Error: " ++ msg := by
  have hm := hasMember_of_getKey h1
  have hc : classifyBody j = .ok ("API Error: " ++ msg) := by
    simp [classifyBody, hm, h1, h2, pyStr]
  refine ⟨hc, ?_⟩
  simp [respond, respondTry, hc]

/-- Witness for C4: a body carrying both an error payload and a
well-formed choices list surfaces the API error. -/
theorem classify_api_error_priority_witness :
    classifyBody (.obj [("error", .obj [("message", .str "insufficient_quota")]),
                        ("choices", .arr [.obj [("message", .obj [("content", .str "hi")])]])])
      = .ok ("API Error: " ++ "insufficient_quota") ∧
    respond (.ok []) "m" "q"
        (fun _ => .ok (.obj [("error", .obj [("message", .str "insufficient_quota")]),
                             ("choices", .arr [.obj [("message", .obj [("content", .str "hi")])]])]))
      = "API Error: " ++ "insufficient_quota" :=
  classify_api_error_priority _ _ "insufficient_quota" [] "m" "q" rfl rfl

/-- C5 counterexample: the body whose only content is a choices list with
one element carrying a `message` object that lacks `content` has no error
indicator and no textual first message, yet classification raises a
`KeyError` on `content`, and `respond` returns the generic
`Error:`-prefixed string, not the fixed could-not-parse string. -/
theorem classify_missing_content_raises :
    (Json.obj [("choices", .arr [.obj [("message", .obj [])]])]).hasMember "error"
      = .ok false ∧
    classifyBody (.obj [("choices", .arr [.obj [("message", .obj [])]])])
      = .error (.keyErrorStr "content") ∧
    respond (.ok []) "m" "q"
        (fun _ => .ok (.obj [("choices", .arr [.obj [("message", .obj [])]])]))
      = "Error: \x27content\x27" ∧
    respond (.ok []) "m" "q"
        (fun _ => .ok (.obj [("choices", .arr [.obj [("message", .obj [])]])]))
      ≠ "Could not parse API response properly." := by
  refine ⟨rfl, rfl, rfl, ?_⟩
  decide

/-- C5 amended: a parsed body with no error indicator falls through to the
fixed could-not-parse string when it has no `choices` member, or its
`choices` value is an empty list, or the first choice has no `message`
key; a first choice whose `message` value lacks `content` instead raises
a `KeyError` that the outer handler turns into the generic error string. -/
theorem classify_malformed_cases (j : Json)
    (herr : j.hasMember "error" = .ok false)
    (h : j.hasMember "choices" = .ok false ∨
         j.getKey "choices" = .ok (.arr []) ∨
         ∃ c cs, j.getKey "choices" = .ok (.arr (c :: cs)) ∧
           c.hasMember "message" = .ok false) :
    classifyBody j = .ok "Could not parse API response properly." ∧
    ∀ (docs : List String) (modelName q : String),
      respond (.ok docs) modelName q (fun _ => .ok j)
        = "Could not parse API response properly." := by
  have hc : classifyBody j = .ok "Could not parse API response properly." := by
    rcases h with h | h | ⟨c, cs, hg, hmsg⟩
    · simp [classifyBody, herr, h]
    · have hm := hasMember_of_getKey h
      simp [classifyBody, herr, hm, h, Json.pyLen]
    · have hm := hasMember_of_getKey hg
      simp [classifyBody, herr, hm, hg, Json.pyLen, Json.getFirst, hmsg,
        Int.natCast_pos]
  refine ⟨hc, fun docs modelName q => ?_⟩
  simp [respond, respondTry, hc]

/-- Witness for the amended C5 at the body with an empty choices list. -/
theorem classify_malformed_cases_witness :
    classifyBody (.obj [("choices", .arr [])])
      = .ok "Could not parse API response properly." :=
  (classify_malformed_cases (Json.obj [("choices", Json.arr [])]) rfl
    (.inr (.inl rfl))).1

/-- C6: `respond` never raises — whenever its try-block raises an
exception (retriever failure, transport failure, or a lookup error while
classifying) the result is the displayable `Error:`-prefixed string, and
whenever the try-block succeeds the result is its string. -/
theorem respond_never_raises (retrieval : Except PyExc (List String))
    (modelName message : String) (http : ChatRequest → Except PyExc Json) :
    (∀ e, respondTry retrieval modelName message http = .error e →
      respond retrieval modelName message http = "Error: " ++ excMessage e) ∧
    (∀ s, respondTry retrieval modelName message http = .ok s →
      respond retrieval modelName message http = s) := by
  constructor
  · intro e he
    simp [respond, he]
  · intro s hs
    simp [respond, hs]

/-- Witness for C6: a retriever that raises a connection error yields the
short error string. -/
theorem respond_never_raises_witness :
    respond (.error (.connectionError "Connection refused")) "m" "q"
        (fun _ => .ok .null)
      = "Error: " ++ excMessage (.connectionError "Connection refused") :=
  (respond_never_raises (.error (.connectionError "Connection refused")) "m" "q"
    (fun _ => .ok .null)).1 _ rfl

/-- C8 counterexample: there is no single fixed overhead making the budget
`MAX_TOKENS - overhead - 1000` for every question — the overhead embeds
the question text, so the empty question and a one-character question
already produce different budgets (12981 versus 12980). -/
theorem budget_overhead_depends_on_question :
    ¬ ∃ overhead : Int, ∀ message : String,
      maxKnowledgeTokens message = MAX_TOKENS - overhead - 1000 := by
  rintro ⟨o, h⟩
  have h1 := h ""
  have h2 := h "a"
  have e1 : maxKnowledgeTokens "" = 12981 := by decide
  have e2 : maxKnowledgeTokens "a" = 12980 := by decide
  rw [e1] at h1
  rw [e2] at h2
  omega

/-- C8 amended: the budget is the context ceiling minus the reserved
response allowance of 1000 minus a prompt overhead that is the sum of the
fixed system-prompt estimate (14 tokens) and a question-dependent part,
the estimate of the user template embedding the question (23 characters
plus the question length, divided by 4 rounding down). -/
theorem budget_formula (message : String) :
    maxKnowledgeTokens message
      = MAX_TOKENS - (14 : Int) - (((23 + message.length) / 4 : Nat) : Int) - 1000 := by
  have hsys : estimate_tokens systemPrompt = 14 := by decide
  have h10 : ("Question: " : String).length = 10 := by decide
  have h13 : ("\n\nKnowledge: " : String).length = 13 := by decide
  have hlen : (userPromptTemplate message).length = 23 + message.length := by
    simp [userPromptTemplate, String.length_append, h10, h13]
    omega
  unfold maxKnowledgeTokens baseTokens
  rw [hsys]
  unfold estimate_tokens
  rw [hlen]
  push_cast
  ring
